import Mathlib

set_option maxRecDepth 1000000
set_option maxHeartbeats 2000000

/-
Verification of the mean-variance portfolio optimization service
(`src/main.py`) against its natural-language specification.

Shallow embedding conventions:

* A pandas `DataFrame` is a `Frame`: a list of column names plus a list of
  rows, each row an index label paired with its cells.  A cell is
  `Option ℚ`: `none` models NaN (which is also what an unparseable or
  infinite value becomes after `pd.to_numeric(..., errors="coerce")` and
  the `replace([inf, -inf], nan)` step), `some q` a finite numeric value.
  Real arithmetic is idealized as exact rational arithmetic.
* The third-party solver library (`pypfopt.EfficientFrontier`, backed by
  cvxpy, and `np.linalg.eigvals`) is not part of this repository; the
  orchestration code in `optimize_portfolio` is therefore embedded as a
  function parameterized over a `SolverEnv` oracle supplying exactly the
  library calls the source makes.  All theorems about the orchestration
  hold for every oracle.
* Python exceptions become `Except`; the `print` diagnostics of the
  risk-check branch become an explicit `Event` trace so that "the
  efficient-risk solve was attempted / fell back" is observable.
-/

namespace PortfolioOpt

instance {ε α : Type} [DecidableEq ε] [DecidableEq α] : DecidableEq (Except ε α) :=
  fun x y =>
    match x, y with
    | .ok a, .ok b =>
      if h : a = b then .isTrue (by rw [h]) else .isFalse (fun hh => h (Except.ok.inj hh))
    | .error a, .error b =>
      if h : a = b then .isTrue (by rw [h]) else .isFalse (fun hh => h (Except.error.inj hh))
    | .ok _, .error _ => .isFalse (fun hh => Except.noConfusion hh)
    | .error _, .ok _ => .isFalse (fun hh => Except.noConfusion hh)

/-- A parsed data frame: column (asset) names, and one row per dated
observation, carrying the index label and the cells.  `none` models NaN. -/
structure Frame where
  cols : List String
  rows : List (String × List (Option ℚ))
deriving DecidableEq, Repr

/-- Error kinds raised by the pipeline (each corresponds to one `raise
ValueError` site in `src/main.py`). -/
inductive OptError where
  | emptyFile
  | insufficientRows (n : Nat)
  | insufficientAssets (n : Nat)
  | pricesNotReturns
  | insufficientRowsAfterClean (n : Nat)
  | insufficientAssetsAfterClean (n : Nat)
  | statsMuUndefined
  | statsCovUndefined
  | illConditioned
  | solverFailed (msg : String)
deriving DecidableEq, Repr

/-- All numeric (non-NaN) cells of a frame, row-major; `df.max().max()` and
`df.min().min()` range over exactly these, since pandas max/min skip NaN. -/
def someCells (f : Frame) : List ℚ :=
  ((f.rows.map (fun r => r.2)).flatten).filterMap id

/-- Maximum of the numeric cells (`df.max().max()`); `none` when every cell
is NaN, in which case the pandas result is NaN and every comparison with it
is false. -/
def maxVal (f : Frame) : Option ℚ :=
  (someCells f).foldl
    (fun acc q => match acc with | none => some q | some m => some (max m q)) none

/-- Minimum of the numeric cells (`df.min().min()`). -/
def minVal (f : Frame) : Option ℚ :=
  (someCells f).foldl
    (fun acc q => match acc with | none => some q | some m => some (min m q)) none

/-- Embedding of `PortfolioOptimizer.validate_csv_format`.  The returned
`Bool` records whether the extreme-returns warning was printed (the source
prints and accepts in that branch).  The non-numeric-column check of the
source cannot fire in this embedding because `Frame` cells are numeric (or
NaN) by construction, so it is omitted. -/
def validate_csv_format (f : Frame) : Except OptError Bool :=
  if f.rows.isEmpty || f.cols.isEmpty then .error .emptyFile
  else if f.rows.length < 30 then .error (.insufficientRows f.rows.length)
  else if f.cols.length < 2 then .error (.insufficientAssets f.cols.length)
  else
    match maxVal f, minVal f with
    | some mx, some mn =>
      if 1 < mx ∨ mn < -1 then
        if 100 < mx then .error .pricesNotReturns
        else .ok true
      else .ok false
    | _, _ => .ok false

/-- Keep the first element for each distinct key, preserving order: the
common behaviour of `df.drop_duplicates()` (key = the row values) and
`df[~df.index.duplicated(keep="first")]` (key = the index label). -/
def dedupByAux {α β : Type} [DecidableEq β] (key : α → β) :
    List β → List α → List α
  | _, [] => []
  | seen, a :: as =>
    if key a ∈ seen then dedupByAux key seen as
    else a :: dedupByAux key (key a :: seen) as

def dedupBy {α β : Type} [DecidableEq β] (key : α → β) (l : List α) : List α :=
  dedupByAux key [] l

/-- The transformation part of `PortfolioOptimizer.clean_data` (everything
before the final size re-checks): drop duplicate rows, drop duplicated index
labels keeping the first, drop columns whose NaN ratio strictly exceeds 10%,
then drop rows that still contain NaN.  The `to_numeric` coercion and the
inf→NaN replacement are identities here because cells are already
`Option ℚ`. -/
def clean_transform (f : Frame) : Frame :=
  let r1 := dedupBy (fun r => r.2) f.rows
  let r2 := dedupBy (fun r => r.1) r1
  let kept := (List.range f.cols.length).filter
    (fun j => 10 * (r2.filter (fun r => r.2.getD j none = none)).length ≤ r2.length)
  let colsK := kept.filterMap (fun j => f.cols.get? j)
  let r3 := r2.map (fun r => (r.1, kept.map (fun j => r.2.getD j none)))
  let r4 := r3.filter (fun r => r.2.all (fun c => c.isSome))
  { cols := colsK, rows := r4 }

/-- Embedding of `PortfolioOptimizer.clean_data`: transform, then re-check
the ≥30 observations / ≥2 assets minima on the cleaned frame. -/
def clean_data (f : Frame) : Except OptError Frame :=
  let g := clean_transform f
  if g.rows.length < 30 then .error (.insufficientRowsAfterClean g.rows.length)
  else if g.cols.length < 2 then .error (.insufficientAssetsAfterClean g.cols.length)
  else .ok g

/-- Column `j` of a frame as the list of its cells (missing positions of a
ragged row read as NaN; real pandas frames are rectangular). -/
def Frame.col (f : Frame) (j : Nat) : List (Option ℚ) :=
  f.rows.map (fun r => r.2.getD j none)

/-- The numeric values of column `j`. -/
def Frame.colVals (f : Frame) (j : Nat) : List ℚ :=
  (f.col j).filterMap id

/-- Annualized mean of one column: `df.mean() * 252`.  pandas `mean` skips
NaN and yields NaN on an all-NaN column. -/
def annualMean (c : List (Option ℚ)) : Option ℚ :=
  let v := c.filterMap id
  if v.length = 0 then none else some (252 * (v.sum / (v.length : ℚ)))

/-- The pairwise-complete observations of two columns, as pandas `cov`
uses them (rows where either entry is NaN are excluded). -/
def pairwiseComplete (x y : List (Option ℚ)) : List (ℚ × ℚ) :=
  (x.zip y).filterMap
    (fun p => match p with | (some a, some b) => some (a, b) | _ => none)

/-- Annualized sample covariance of two columns: `df.cov() * 252`, pandas
semantics: pairwise complete observations, unbiased `N-1` denominator,
NaN when fewer than two complete pairs exist. -/
def annualCov (x y : List (Option ℚ)) : Option ℚ :=
  let p := pairwiseComplete x y
  if p.length < 2 then none
  else
    let n : ℚ := (p.length : ℚ)
    let mx := (p.map Prod.fst).sum / n
    let my := (p.map Prod.snd).sum / n
    some (252 * (((p.map (fun ab => (ab.1 - mx) * (ab.2 - my))).sum) / (n - 1)))

/-- `mu = df.mean() * TRADING_DAYS` of `optimize_portfolio`, entrywise. -/
def statsMu (f : Frame) : List (Option ℚ) :=
  (List.range f.cols.length).map (fun j => annualMean (f.col j))

/-- `S = df.cov() * TRADING_DAYS` of `optimize_portfolio`, entrywise. -/
def statsSigma (f : Frame) : List (List (Option ℚ)) :=
  (List.range f.cols.length).map
    (fun i => (List.range f.cols.length).map (fun j => annualCov (f.col i) (f.col j)))

/-- Sequence a list of options; `none` exactly when some entry is `none`.
`mu.isna().any()` (resp. `S.isna().any().any()`) fails exactly when this
returns `none`. -/
def seqO {α : Type} : List (Option α) → Option (List α)
  | [] => some []
  | none :: _ => none
  | some a :: t => (seqO t).map (fun l => a :: l)

/-- Round half to even (the semantics of Python `round` on the idealized
exact values). -/
def roundHalfEven (q : ℚ) : ℤ :=
  let n := ⌊q⌋
  if q - (n : ℚ) < 1/2 then n
  else if (1 : ℚ)/2 < q - (n : ℚ) then n + 1
  else if n % 2 = 0 then n else n + 1

/-- `round(x, 6)` of the source, on the idealized exact values. -/
def round6 (q : ℚ) : ℚ := ((roundHalfEven (q * 1000000) : ℚ)) / 1000000

/-- The solver-library oracle: exactly the external calls `optimize_portfolio`
makes into numpy/pypfopt, none of which is code of this repository.
`performance` takes the raw solver weights together with `(mu, S)`, as
`EfficientFrontier.portfolio_performance` reads them from the object state. -/
structure SolverEnv where
  eigvals : List (List ℚ) → List ℚ
  maxSharpe : List ℚ → List (List ℚ) → ℚ → Except String (List ℚ)
  cleanWeights : List ℚ → List ℚ
  performance : List ℚ → List (List ℚ) → List ℚ → ℚ × ℚ × ℚ
  efficientRisk : List ℚ → List (List ℚ) → ℚ → ℚ → Except String (List ℚ)

/-- Observable side effects of the risk-check branch (the source's `print`
diagnostics), recorded so that "the efficient-risk solve was attempted" is
part of the embedded behaviour. -/
inductive Event where
  | riskCeilingExceeded
  | riskConstraintApplied
  | riskConstraintFallback (msg : String)
deriving DecidableEq, Repr

structure Metrics where
  expected_return : ℚ
  expected_volatility : ℚ
  sharpe_ratio : ℚ
  active_positions : Nat
  total_weight : ℚ
deriving DecidableEq, Repr

structure OptResult where
  optimal_portfolio : List ℚ
  portfolio_metrics : Metrics
deriving DecidableEq, Repr

/-- The `result` dictionary assembled at the end of `optimize_portfolio`
from the currently selected cleaned weights and `(return, volatility,
sharpe)` triple. -/
def mkResult (cleaned : List ℚ) (perf : ℚ × ℚ × ℚ) : OptResult :=
  { optimal_portfolio := cleaned,
    portfolio_metrics :=
      { expected_return := round6 perf.1,
        expected_volatility := round6 perf.2.1,
        sharpe_ratio := round6 perf.2.2,
        active_positions := (cleaned.filter (fun w => decide ((1 : ℚ)/1000 < w))).length,
        total_weight := round6 cleaned.sum } }

/-- The risk-check block of `optimize_portfolio` (lines 150-162): when the
max-Sharpe volatility strictly exceeds `risk_level`, attempt
`efficient_risk`; on success adopt its cleaned weights and metrics, on any
solver failure keep the max-Sharpe `cleaned`/`perf` unchanged. -/
def riskStep (env : SolverEnv) (mu : List ℚ) (S : List (List ℚ))
    (maxw riskLevel : ℚ) (cleaned : List ℚ) (perf : ℚ × ℚ × ℚ) :
    List ℚ × (ℚ × ℚ × ℚ) × List Event :=
  if riskLevel < perf.2.1 then
    match env.efficientRisk mu S maxw riskLevel with
    | .ok rraw =>
      (env.cleanWeights rraw, env.performance mu S rraw,
       [Event.riskCeilingExceeded, Event.riskConstraintApplied])
    | .error m => (cleaned, perf, [Event.riskCeilingExceeded, Event.riskConstraintFallback m])
  else (cleaned, perf, [])

/-- Embedding of `PortfolioOptimizer.optimize_portfolio`: annualized
statistics, NaN checks on `mu` and `S`, eigenvalue gate, max-Sharpe solve,
risk-ceiling check with silent fallback, result assembly.  A failure of the
max-Sharpe solve is re-raised by the source's outer `except` as a
`ValueError`, embedded as `.solverFailed`. -/
def optimize_portfolio (env : SolverEnv) (f : Frame) (risk_level max_weight : ℚ) :
    Except OptError OptResult × List Event :=
  match seqO (statsMu f) with
  | none => (.error .statsMuUndefined, [])
  | some mu =>
    match seqO ((statsSigma f).map seqO) with
    | none => (.error .statsCovUndefined, [])
    | some S =>
      if (env.eigvals S).any (fun x => decide (x ≤ 0)) then (.error .illConditioned, [])
      else
        match env.maxSharpe mu S max_weight with
        | .error e => (.error (.solverFailed e), [])
        | .ok raw =>
          let step := riskStep env mu S max_weight risk_level
            (env.cleanWeights raw) (env.performance mu S raw)
          (.ok (mkResult step.1 step.2.1), step.2.2)

/-- One optimization request as the engine sees it. -/
structure Request where
  frame : Frame
  risk_level : ℚ
  max_weight : ℚ
deriving DecidableEq, Repr

/-- A batch of requests processed by the (stateless) engine: the embedding
of `optimize_portfolio` carries no cross-request state, mirroring the
source, whose `PortfolioOptimizer` holds only static methods and mutates no
module-level data that feeds back into results. -/
def runRequests (env : SolverEnv) (reqs : List Request) :
    List (Except OptError OptResult) :=
  reqs.map (fun r => (optimize_portfolio env r.frame r.risk_level r.max_weight).1)

/-- A multipart upload stream, with Starlette `UploadFile` semantics: a full
`read` consumes the stream, and a second `read` returns empty content. -/
structure UploadFile where
  filename : String
  content : String
  consumed : Bool
deriving DecidableEq, Repr

/-- `await file.read()`: the remaining content, and the stream afterwards. -/
def UploadFile.readAll (u : UploadFile) : String × UploadFile :=
  (if u.consumed then "" else u.content, { u with consumed := true })

/-- An HTTP-level outcome: a raised `HTTPException` (status, detail), the
minimal response of the main endpoint, or the detailed response. -/
inductive Response where
  | httpError (status : Nat) (detail : String)
  | okMinimal (weights : List ℚ)
  | okDetailed (result : OptResult)
deriving DecidableEq, Repr

/-- Embedding of `optimize_portfolio_endpoint` (`POST /optimize-portfolio`):
parameter range checks, filename check, a single read of the upload stream,
CSV parsing (the external `pd.read_csv`, passed in as `parse`), format
validation, cleaning, optimization, and the minimal response.  The
UTF-8-decoding failure branch cannot fire on embedded strings and is
omitted; error details are abbreviated since no claim inspects them. -/
def optimize_portfolio_endpoint (env : SolverEnv)
    (parse : String → Except String Frame) (file : UploadFile)
    (risk_level max_weight : ℚ) : Response × UploadFile :=
  if ¬ ((1 : ℚ)/100 ≤ risk_level ∧ risk_level ≤ 2) then
    (.httpError 422 "risk_level debe estar entre 0.01 y 2.0", file)
  else if ¬ ((1 : ℚ)/100 ≤ max_weight ∧ max_weight ≤ 1) then
    (.httpError 422 "max_weight debe estar entre 0.01 y 1.0", file)
  else if ¬ (file.filename.toLower.endsWith ".csv") then
    (.httpError 422 "El archivo debe ser un CSV", file)
  else
    let rd := file.readAll
    match parse rd.1 with
    | .error e => (.httpError 422 ("Error al leer el archivo CSV: " ++ e), rd.2)
    | .ok df =>
      match validate_csv_format df with
      | .error _ => (.httpError 422 "Formato de CSV inválido", rd.2)
      | .ok _ =>
        match clean_data df with
        | .error _ => (.httpError 422 "Error en la limpieza de datos", rd.2)
        | .ok dfc =>
          match (optimize_portfolio env dfc risk_level max_weight).1 with
          | .error _ => (.httpError 422 "Error en la optimización", rd.2)
          | .ok res => (.okMinimal res.optimal_portfolio, rd.2)

/-- Embedding of `optimize_portfolio_detailed_endpoint`
(`POST /optimize-portfolio-detailed`): call the main endpoint, re-raise its
`HTTPException`s, then re-read the (already consumed) upload stream and
re-run parse → clean → optimize; any exception in that re-processing is
caught by the generic handler and surfaced as a 500. -/
def optimize_portfolio_detailed_endpoint (env : SolverEnv)
    (parse : String → Except String Frame) (file : UploadFile)
    (risk_level max_weight : ℚ) : Response × UploadFile :=
  let r1 := optimize_portfolio_endpoint env parse file risk_level max_weight
  match r1.1 with
  | .httpError s d => (.httpError s d, r1.2)
  | _ =>
    let rd := r1.2.readAll
    match parse rd.1 with
    | .error e => (.httpError 500 ("Error interno: " ++ e), rd.2)
    | .ok df =>
      match clean_data df with
      | .error _ => (.httpError 500 "Error interno", rd.2)
      | .ok dfc =>
        match (optimize_portfolio env dfc risk_level max_weight).1 with
        | .error _ => (.httpError 500 "Error interno", rd.2)
        | .ok res => (.okDetailed res, rd.2)

/-! ### Spec-side statistics definitions

Written from the specification's words ("μ_i = mean(returns_i) × 252;
Σ = sampleCovariance(returns) × 252, using the standard unbiased (N−1
denominator) estimator"), to be compared with the source-side
`annualMean` / `annualCov`. -/

/-- Spec-side: per-asset daily mean multiplied by 252. -/
def specAnnualMean (xs : List ℚ) : ℚ :=
  (xs.sum / (xs.length : ℚ)) * 252

/-- Spec-side: sample covariance with the unbiased N−1 denominator. -/
def specSampleCov (xs ys : List ℚ) : ℚ :=
  ((xs.zip ys).map
    (fun p => (p.1 - xs.sum / (xs.length : ℚ)) * (p.2 - ys.sum / (ys.length : ℚ)))).sum
    / ((xs.length : ℚ) - 1)

/-- Spec-side: sample covariance multiplied by 252. -/
def specAnnualCov (xs ys : List ℚ) : ℚ :=
  specSampleCov xs ys * 252

/-! ### Concrete fixtures used by the witness theorems -/

/-- Closed-form eigenvalues of a symmetric 2×2 matrix with equal diagonal
entries, `[[a, b], [b, a]]`: they are `a - b` and `a + b`.  Used to
instantiate the `eigvals` oracle on inputs of that shape. -/
def eigvalsEqualDiag : List (List ℚ) → List ℚ
  | [[a, b], [_, _]] => [a - b, a + b]
  | _ => []

/-- A concrete solver oracle used to exercise the orchestration layer in
witnesses: a fixed feasible max-Sharpe answer, identity weight cleaning, a
fixed performance triple with volatility 1/2, and an always-infeasible
efficient-risk solve. -/
def stubSolver : SolverEnv :=
  { eigvals := eigvalsEqualDiag,
    maxSharpe := fun _ _ _ => .ok [7/10, 3/10],
    cleanWeights := fun w => w,
    performance := fun _ _ _ => (3/25, 1/2, 6/25),
    efficientRisk := fun _ _ _ _ => .error "infeasible" }

/-- A 3-observation, 2-asset frame whose columns are distinct permutations
of the same values, so its (annualized) covariance matrix has equal
diagonal entries and `eigvalsEqualDiag` applies, with both eigenvalues
positive. -/
def frame3 : Frame :=
  { cols := ["A", "B"],
    rows := [("d0", [some 0, some 0]),
             ("d1", [some (1/10), some (2/10)]),
             ("d2", [some (2/10), some (1/10)])] }

/-- A 3-observation frame with two identical columns (perfectly correlated
assets): its covariance matrix is `[[v, v], [v, v]]` with eigenvalues
`0` and `2v`. -/
def frameCorr : Frame :=
  { cols := ["A", "B"],
    rows := [("d0", [some 0, some 0]),
             ("d1", [some (1/10), some (1/10)]),
             ("d2", [some (2/10), some (2/10)])] }

/-- One row of `frame30`. -/
def demoRow (i : ℕ) : String × List (Option ℚ) :=
  (toString i, [some (((i : ℚ) + 1) / 100), some (((i * 7 % 30 : ℕ) : ℚ) / 100)])

/-- A clean 30-observation, 2-asset frame: distinct rows, distinct index
labels, no NaN, all values inside [-1, 1]. -/
def frame30 : Frame :=
  { cols := ["A", "B"], rows := (List.range 30).map demoRow }

/-- `frame30` with one cell replaced by 500 (a price-like value). -/
def frame30Prices : Frame :=
  { cols := ["A", "B"],
    rows := ("extra", [some 500, some (1/100)]) ::
      (frame30.rows.drop 1) }

/-- A 2-observation frame containing a price-like cell value 500. -/
def frameTinyPrices : Frame :=
  { cols := ["A", "B"],
    rows := [("d0", [some 500, some (1/10)]),
             ("d1", [some (2/10), some (3/10)])] }

/-- A 2-observation NaN-free frame with distinct rows and labels. -/
def frameTiny : Frame :=
  { cols := ["A", "B"],
    rows := [("d0", [some (1/10), some (2/10)]),
             ("d1", [some (2/10), some (3/10)])] }

/-- A 2-row, 2-column NaN-free frame for the statistics witness. -/
def frame2x2 : Frame :=
  { cols := ["A", "B"],
    rows := [("d0", [some (1/10), some (3/10)]),
             ("d1", [some (2/10), some (1/10)])] }

/-- A toy CSV parser for endpoint witnesses: fails on empty content (as
`pd.read_csv` does, with `EmptyDataError`), returns a fixed valid frame
otherwise. -/
def demoParse (s : String) : Except String Frame :=
  if s = "" then .error "No columns to parse from file" else .ok frame30

/-- A fresh upload of a CSV file. -/
def demoUpload : UploadFile :=
  { filename := "returns.csv", content := "A,B 0.01,0.02", consumed := false }

/-- Two identical requests, for the idempotence witness. -/
def demoRequests : List Request :=
  [{ frame := frame3, risk_level := 1, max_weight := 7/10 },
   { frame := frame3, risk_level := 1, max_weight := 7/10 }]

/-! ### Theorems -/

/-- A list of positive length is not `isEmpty`. -/
theorem isEmpty_false_of_pos {α : Type} (l : List α) (h : 0 < l.length) :
    l.isEmpty = false := by
  cases l with
  | nil => simp at h
  | cons a t => rfl

/-- C7: for every input matrix that, at the point the re-check runs (i.e.
after the cleaning transformation), has fewer than 30 observations or fewer
than 2 assets, `clean_data` fails with the corresponding insufficient-data
error — the minima are re-checked by the cleaning step itself even though
`validate_csv_format` upstream already enforced them on the raw input. -/
theorem C7_clean_data_rechecks_minima (f : Frame)
    (h : (clean_transform f).rows.length < 30 ∨ (clean_transform f).cols.length < 2) :
    clean_data f = .error
      (if (clean_transform f).rows.length < 30
       then .insufficientRowsAfterClean (clean_transform f).rows.length
       else .insufficientAssetsAfterClean (clean_transform f).cols.length) := by
  unfold clean_data
  rcases h with h | h
  · simp [h]
  · by_cases h30 : (clean_transform f).rows.length < 30
    · simp [h30]
    · simp [h30, h]

/-- Witness for C7: a clean 2-observation frame is rejected by the re-check
with the insufficient-rows error. -/
theorem C7_clean_data_rechecks_minima_witness :
    clean_data frameTiny = .error (.insufficientRowsAfterClean 2) := by
  have h := C7_clean_data_rechecks_minima frameTiny (Or.inl (by with_unfolding_all decide))
  exact h.trans (by with_unfolding_all decide)

/-- C10 counterexample: the claim quantifies over every input matrix, but a
matrix containing a cell value greater than 100 that also has fewer than 30
observations is rejected by the earlier dimension check with the
insufficient-data error, not with the prices-instead-of-returns error. -/
theorem C10_price_check_counterexample :
    (∃ q ∈ someCells frameTinyPrices, 100 < q) ∧
      validate_csv_format frameTinyPrices ≠ .error .pricesNotReturns := by
  refine ⟨⟨500, ?_⟩, ?_⟩
  · with_unfolding_all decide
  · with_unfolding_all decide

/-- Folding the option-valued max/min step from a `some` start always
yields `some`. -/
theorem foldl_opt_some {g : ℚ → ℚ → ℚ} (t : List ℚ) (a : ℚ) :
    ∃ r, t.foldl
      (fun acc q => match acc with | none => some q | some m => some (g m q))
      (some a) = some r := by
  induction t generalizing a with
  | nil => exact ⟨a, rfl⟩
  | cons b t ih => exact ih (g a b)

/-- If the frame has a numeric maximum it also has a numeric minimum. -/
theorem minVal_some_of_maxVal (f : Frame) (mx : ℚ) (h : maxVal f = some mx) :
    ∃ mn, minVal f = some mn := by
  unfold maxVal at h
  unfold minVal
  cases hl : someCells f with
  | nil => rw [hl] at h; exact absurd h (by simp)
  | cons a t =>
    rw [List.foldl_cons]
    exact foldl_opt_some (g := fun m q => min m q) t a

/-- C10 (amended): for every input matrix that passes the emptiness and
dimension checks, format validation rejects with the
prices-instead-of-returns error exactly when the maximum cell value exceeds
100; and a matrix whose values fall outside [-1, 1] without exceeding 100 is
accepted with only a warning (the `.ok true` flag records the printed
warning). -/
theorem C10_price_check_amended (f : Frame)
    (h30 : 30 ≤ f.rows.length) (h2 : 2 ≤ f.cols.length) :
    (validate_csv_format f = .error .pricesNotReturns ↔
      (∃ mx, maxVal f = some mx ∧ 100 < mx)) ∧
    (∀ mx mn, maxVal f = some mx → minVal f = some mn → mx ≤ 100 →
      (1 < mx ∨ mn < -1) → validate_csv_format f = .ok true) := by
  have hre : f.rows.isEmpty = false :=
    isEmpty_false_of_pos _ (lt_of_lt_of_le (by norm_num) h30)
  have hce : f.cols.isEmpty = false :=
    isEmpty_false_of_pos _ (lt_of_lt_of_le (by norm_num) h2)
  have hr30 : ¬ f.rows.length < 30 := not_lt.mpr h30
  have hc2 : ¬ f.cols.length < 2 := not_lt.mpr h2
  have hval : validate_csv_format f =
      (match maxVal f, minVal f with
       | some mx, some mn =>
         if 1 < mx ∨ mn < -1 then
           if 100 < mx then Except.error OptError.pricesNotReturns else Except.ok true
         else Except.ok false
       | _, _ => Except.ok false) := by
    unfold validate_csv_format
    rw [hre, hce]
    simp [hr30, hc2]
  have hval2 : ∀ mx mn, maxVal f = some mx → minVal f = some mn →
      validate_csv_format f =
        (if 1 < mx ∨ mn < -1 then
          (if 100 < mx then Except.error OptError.pricesNotReturns else Except.ok true)
        else Except.ok false) := by
    intro mx mn hmx hmn
    rw [hval, hmx, hmn]
  have hnone : maxVal f = none → validate_csv_format f = .ok false := by
    intro hmx
    rw [hval, hmx]
  constructor
  · constructor
    · intro hv
      cases hmx : maxVal f with
      | none => rw [hnone hmx] at hv; exact absurd hv (by simp)
      | some mx =>
        obtain ⟨mn, hmn⟩ := minVal_some_of_maxVal f mx hmx
        rw [hval2 mx mn hmx hmn] at hv
        by_cases hout : 1 < mx ∨ mn < -1
        · rw [if_pos hout] at hv
          by_cases h100 : 100 < mx
          · exact ⟨mx, rfl, h100⟩
          · rw [if_neg h100] at hv; exact absurd hv (by simp)
        · rw [if_neg hout] at hv; exact absurd hv (by simp)
    · rintro ⟨mx, hmx, h100⟩
      obtain ⟨mn, hmn⟩ := minVal_some_of_maxVal f mx hmx
      rw [hval2 mx mn hmx hmn]
      have hout : 1 < mx ∨ mn < -1 := Or.inl (lt_trans (by norm_num) h100)
      rw [if_pos hout, if_pos h100]
  · intro mx mn hmx hmn h100 hout
    rw [hval2 mx mn hmx hmn]
    rw [if_pos hout, if_neg (not_lt.mpr h100)]

/-- Witness for C10 (amended): a 30-observation frame with one price-like
cell (value 500) is rejected with the prices-instead-of-returns error. -/
theorem C10_price_check_amended_witness :
    validate_csv_format frame30Prices = .error .pricesNotReturns :=
  (C10_price_check_amended frame30Prices (by with_unfolding_all decide)
    (by with_unfolding_all decide)).1.mpr
    ⟨500, by with_unfolding_all decide, by norm_num⟩

/-- C1: when the max-Sharpe solve succeeds, its volatility exceeds the risk
ceiling, and the subsequent efficient-risk solve fails with any solver
error, `optimize_portfolio` still returns a `Success` (`.ok`) result whose
weights and metrics are exactly the max-Sharpe result, and no error reaches
the caller for the failed re-solve (only the fallback log event is
emitted). -/
theorem C1_fallback_keeps_max_sharpe (env : SolverEnv) (f : Frame)
    (risk_level max_weight : ℚ) (mu raw : List ℚ) (S : List (List ℚ))
    (er ev sr : ℚ) (msg : String)
    (hmu : seqO (statsMu f) = some mu)
    (hS : seqO ((statsSigma f).map seqO) = some S)
    (heig : (env.eigvals S).any (fun x => decide (x ≤ 0)) = false)
    (hms : env.maxSharpe mu S max_weight = .ok raw)
    (hperf : env.performance mu S raw = (er, ev, sr))
    (hvol : risk_level < ev)
    (hinf : env.efficientRisk mu S max_weight risk_level = .error msg) :
    optimize_portfolio env f risk_level max_weight =
      (.ok (mkResult (env.cleanWeights raw) (er, ev, sr)),
       [Event.riskCeilingExceeded, Event.riskConstraintFallback msg]) := by
  unfold optimize_portfolio riskStep
  simp only [hmu, hS, heig, Bool.false_eq_true, if_false, hms, hperf, hinf]
  rw [if_pos hvol]

/-- Witness for C1: the concrete stub solver with volatility 1/2 against
risk ceiling 1/4 and an infeasible efficient-risk solve. -/
theorem C1_fallback_keeps_max_sharpe_witness :
    optimize_portfolio stubSolver frame3 (1/4) (7/10) =
      (.ok (mkResult (stubSolver.cleanWeights [7/10, 3/10]) (3/25, 1/2, 6/25)),
       [Event.riskCeilingExceeded, Event.riskConstraintFallback "infeasible"]) :=
  C1_fallback_keeps_max_sharpe stubSolver frame3 (1/4) (7/10)
    [126/5, 126/5] [7/10, 3/10] [[63/25, 63/50], [63/50, 63/25]]
    (3/25) (1/2) (6/25) "infeasible"
    (by with_unfolding_all decide) (by with_unfolding_all decide)
    (by with_unfolding_all decide) rfl rfl (by norm_num) rfl

/-- C5: when the max-Sharpe solve succeeds and its volatility does not
exceed the risk ceiling, the max-Sharpe weights and metrics are the final
result and the efficient-risk solve is never attempted (no risk-check event
is emitted, and the result does not depend on the `efficientRisk` oracle). -/
theorem C5_risk_resolve_only_when_exceeded (env : SolverEnv) (f : Frame)
    (risk_level max_weight : ℚ) (mu raw : List ℚ) (S : List (List ℚ))
    (er ev sr : ℚ)
    (hmu : seqO (statsMu f) = some mu)
    (hS : seqO ((statsSigma f).map seqO) = some S)
    (heig : (env.eigvals S).any (fun x => decide (x ≤ 0)) = false)
    (hms : env.maxSharpe mu S max_weight = .ok raw)
    (hperf : env.performance mu S raw = (er, ev, sr))
    (hvol : ev ≤ risk_level) :
    optimize_portfolio env f risk_level max_weight =
      (.ok (mkResult (env.cleanWeights raw) (er, ev, sr)), []) := by
  unfold optimize_portfolio riskStep
  simp only [hmu, hS, heig, Bool.false_eq_true, if_false, hms, hperf]
  rw [if_neg (not_lt.mpr hvol)]

/-- Witness for C5: the stub solver with volatility 1/2 against risk
ceiling 1. -/
theorem C5_risk_resolve_only_when_exceeded_witness :
    optimize_portfolio stubSolver frame3 1 (7/10) =
      (.ok (mkResult (stubSolver.cleanWeights [7/10, 3/10]) (3/25, 1/2, 6/25)), []) :=
  C5_risk_resolve_only_when_exceeded stubSolver frame3 1 (7/10)
    [126/5, 126/5] [7/10, 3/10] [[63/25, 63/50], [63/50, 63/25]]
    (3/25) (1/2) (6/25)
    (by with_unfolding_all decide) (by with_unfolding_all decide)
    (by with_unfolding_all decide) rfl rfl (by norm_num)

/-- C4: provided the statistics step succeeded, the run fails with the
ill-conditioned-covariance error exactly when some eigenvalue reported for
the covariance matrix is ≤ 0 (the source compares against 0 itself, with no
positive epsilon); the matrix is rejected, never repaired. -/
theorem C4_eigenvalue_gate (env : SolverEnv) (f : Frame)
    (risk_level max_weight : ℚ) (mu : List ℚ) (S : List (List ℚ))
    (hmu : seqO (statsMu f) = some mu)
    (hS : seqO ((statsSigma f).map seqO) = some S) :
    ((optimize_portfolio env f risk_level max_weight).1 = .error .illConditioned
      ↔ ∃ x ∈ env.eigvals S, x ≤ 0) := by
  unfold optimize_portfolio
  simp only [hmu, hS]
  cases hany : (env.eigvals S).any (fun x => decide (x ≤ 0)) with
  | true =>
    have hex : ∃ x ∈ env.eigvals S, x ≤ 0 := by
      obtain ⟨x, hmem, hx⟩ := List.any_eq_true.mp hany
      exact ⟨x, hmem, of_decide_eq_true hx⟩
    exact iff_of_true (by simp) hex
  | false =>
    apply iff_of_false
    · cases hms : env.maxSharpe mu S max_weight with
      | error e => simp [hms]
      | ok raw => simp [hms]
    · rintro ⟨x, hmem, hx⟩
      have htrue : (env.eigvals S).any (fun x => decide (x ≤ 0)) = true :=
        List.any_eq_true.mpr ⟨x, hmem, decide_eq_true hx⟩
      exact absurd (hany.symm.trans htrue) (by simp)

/-- Witness for C4: two perfectly correlated assets give the covariance
matrix `[[v, v], [v, v]]` with eigenvalue 0, and the run is rejected with
the ill-conditioned-covariance error. -/
theorem C4_eigenvalue_gate_witness :
    (optimize_portfolio stubSolver frameCorr 1 (7/10)).1 = .error .illConditioned :=
  (C4_eigenvalue_gate stubSolver frameCorr 1 (7/10)
    [126/5, 126/5] [[63/25, 63/25], [63/25, 63/25]]
    (by with_unfolding_all decide) (by with_unfolding_all decide)).mpr
    ⟨0, by with_unfolding_all decide, le_refl 0⟩

/-- C8: the engine keeps no cross-request state and is deterministic —
identical requests anywhere in a batch produce identical outputs.  In the
embedding this is immediate because `optimize_portfolio`, faithfully to the
source (a class of static methods with no module-level mutable state
feeding back into results), is a pure function of the request and the
solver oracle. -/
theorem C8_idempotent_stateless (env : SolverEnv) (reqs : List Request)
    (i j : Nat) (h : reqs.get? i = reqs.get? j) :
    (runRequests env reqs).get? i = (runRequests env reqs).get? j := by
  unfold runRequests
  rw [List.get?_map, List.get?_map, h]

/-- Witness for C8: a batch of two identical requests yields identical
responses. -/
theorem C8_idempotent_stateless_witness :
    (runRequests stubSolver demoRequests).get? 0 =
      (runRequests stubSolver demoRequests).get? 1 :=
  C8_idempotent_stateless stubSolver demoRequests 0 1 (by with_unfolding_all decide)

/-- Any outcome of the main endpoint other than a raised `HTTPException`
leaves the upload stream consumed. -/
theorem endpoint_okMinimal_consumes (env : SolverEnv)
    (parse : String → Except String Frame) (file : UploadFile)
    (risk_level max_weight : ℚ) (w : List ℚ) (f1 : UploadFile)
    (h : optimize_portfolio_endpoint env parse file risk_level max_weight =
      (.okMinimal w, f1)) :
    f1.consumed = true := by
  unfold optimize_portfolio_endpoint at h
  by_cases h1 : ¬ ((1 : ℚ)/100 ≤ risk_level ∧ risk_level ≤ 2)
  · rw [if_pos h1] at h
    exact absurd (congrArg Prod.fst h) (by simp)
  · rw [if_neg h1] at h
    by_cases h2 : ¬ ((1 : ℚ)/100 ≤ max_weight ∧ max_weight ≤ 1)
    · rw [if_pos h2] at h
      exact absurd (congrArg Prod.fst h) (by simp)
    · rw [if_neg h2] at h
      by_cases h3 : ¬ (file.filename.toLower.endsWith ".csv" = true)
      · rw [if_pos h3] at h
        exact absurd (congrArg Prod.fst h) (by simp)
      · rw [if_neg h3] at h
        cases hp : parse file.readAll.1 with
        | error e =>
          simp only [hp] at h
          exact absurd (congrArg Prod.fst h) (by simp)
        | ok df =>
          simp only [hp] at h
          cases hv : validate_csv_format df with
          | error a =>
            simp only [hv] at h
            exact absurd (congrArg Prod.fst h) (by simp)
          | ok b =>
            simp only [hv] at h
            cases hcd : clean_data df with
            | error a =>
              simp only [hcd] at h
              exact absurd (congrArg Prod.fst h) (by simp)
            | ok dfc =>
              simp only [hcd] at h
              cases ho : (optimize_portfolio env dfc risk_level max_weight).1 with
              | error a =>
                simp only [ho] at h
                exact absurd (congrArg Prod.fst h) (by simp)
              | ok res =>
                simp only [ho] at h
                exact (show true = f1.consumed from
                  congrArg (fun p => p.2.consumed) h).symm

/-- C9: after the main optimization succeeds on the uploaded file, the
detailed endpoint reads the same upload stream a second time; the stream is
already consumed, so the second read yields empty content, the re-parse
fails, and the detailed endpoint answers with an internal-error 500 instead
of ever returning the detailed metrics. -/
theorem C9_detailed_endpoint_rereads_consumed_stream (env : SolverEnv)
    (parse : String → Except String Frame) (file : UploadFile)
    (risk_level max_weight : ℚ) (w : List ℚ) (f1 : UploadFile) (msg : String)
    (hparse : parse "" = .error msg)
    (hmain : optimize_portfolio_endpoint env parse file risk_level max_weight =
      (.okMinimal w, f1)) :
    (optimize_portfolio_detailed_endpoint env parse file risk_level max_weight).1 =
      .httpError 500 ("Error interno: " ++ msg) := by
  have hc : f1.consumed = true :=
    endpoint_okMinimal_consumes env parse file risk_level max_weight w f1 hmain
  have hread : f1.readAll.1 = "" := by
    unfold UploadFile.readAll
    rw [hc]
    rfl
  unfold optimize_portfolio_detailed_endpoint
  rw [hmain]
  simp only [hread, hparse]

/-- Witness for C9: a concrete run in which the main endpoint succeeds on a
fresh upload and the detailed endpoint then fails with a 500. -/
theorem C9_detailed_endpoint_rereads_consumed_stream_witness :
    (optimize_portfolio_detailed_endpoint stubSolver demoParse demoUpload 1 (7/10)).1 =
      .httpError 500 ("Error interno: " ++ "No columns to parse from file") :=
  C9_detailed_endpoint_rereads_consumed_stream stubSolver demoParse demoUpload
    1 (7/10) [7/10, 3/10] { demoUpload with consumed := true }
    "No columns to parse from file" rfl (by with_unfolding_all decide)

/-- `filterMap id` undoes `map some`. -/
theorem filterMap_id_map_some {α : Type} (l : List α) :
    (l.map some).filterMap id = l := by
  induction l with
  | nil => rfl
  | cons a t ih =>
    show a :: (t.map some).filterMap id = a :: t
    rw [ih]

/-- A list of options all of which are `some` is the `map some` of its
values. -/
theorem eq_map_some_of_all_isSome {α : Type} (l : List (Option α))
    (h : ∀ x ∈ l, x.isSome = true) : l = (l.filterMap id).map some := by
  induction l with
  | nil => rfl
  | cons x t ih =>
    cases x with
    | none => exact absurd (h none (by simp)) (by simp)
    | some a =>
      have ht := ih (fun x hx => h x (List.mem_cons_of_mem _ hx))
      calc some a :: t = some a :: (t.filterMap id).map some := by rw [← ht]
        _ = ((some a :: t).filterMap id).map some := by
              show some a :: (t.filterMap id).map some
                = (a :: t.filterMap id).map some
              rw [List.map_cons]

/-- On NaN-free columns, the pairwise-complete observations are just the
zipped values. -/
theorem pairwiseComplete_map_some (xs ys : List ℚ) :
    pairwiseComplete (xs.map some) (ys.map some) = xs.zip ys := by
  induction xs generalizing ys with
  | nil => cases ys <;> rfl
  | cons a t ih =>
    cases ys with
    | nil => rfl
    | cons b u =>
      show (a, b) :: pairwiseComplete (t.map some) (u.map some) = (a, b) :: t.zip u
      rw [ih]

/-- Every cell of a column of an all-numeric rectangular frame is `some`. -/
theorem col_all_isSome (f : Frame) (j : Nat)
    (hall : ∀ r ∈ f.rows, ∀ c ∈ r.2, c.isSome = true)
    (hrect : ∀ r ∈ f.rows, r.2.length = f.cols.length)
    (hj : j < f.cols.length) :
    ∀ x ∈ f.col j, x.isSome = true := by
  intro x hx
  unfold Frame.col at hx
  obtain ⟨r, hr, heq⟩ := List.mem_map.mp hx
  have hjlen : j < r.2.length := by rw [hrect r hr]; exact hj
  rw [← heq, List.getD_eq_getElem r.2 none hjlen]
  exact hall r hr _ (List.getElem_mem hjlen)

/-- The numeric values of a column of an all-numeric rectangular frame are
in bijection with the rows. -/
theorem colVals_spec (f : Frame) (j : Nat)
    (hall : ∀ r ∈ f.rows, ∀ c ∈ r.2, c.isSome = true)
    (hrect : ∀ r ∈ f.rows, r.2.length = f.cols.length)
    (hj : j < f.cols.length) :
    f.col j = (f.colVals j).map some ∧ (f.colVals j).length = f.rows.length := by
  have h1 : f.col j = (f.colVals j).map some :=
    eq_map_some_of_all_isSome (f.col j) (col_all_isSome f j hall hrect hj)
  refine ⟨h1, ?_⟩
  have h2 : ((f.colVals j).map some).length = f.rows.length := by
    rw [← h1]
    unfold Frame.col
    rw [List.length_map]
  rw [← h2, List.length_map]

/-- C6: on a cleaned (NaN-free, rectangular, ≥2 observations) return
matrix, the statistics step of the source — `df.mean() * 252` and
`df.cov() * 252` with pandas semantics, embedded as `annualMean` /
`annualCov` and assembled entrywise into `statsMu` / `statsSigma` — equals
the specification formulas: per-asset daily mean multiplied by 252, and the
unbiased (N−1 denominator) sample covariance multiplied by 252. -/
theorem C6_stats_match_spec (f : Frame) (j k : Nat)
    (hall : ∀ r ∈ f.rows, ∀ c ∈ r.2, c.isSome = true)
    (hrect : ∀ r ∈ f.rows, r.2.length = f.cols.length)
    (hlen2 : 2 ≤ f.rows.length)
    (hj : j < f.cols.length) (hk : k < f.cols.length) :
    annualMean (f.col j) = some (specAnnualMean (f.colVals j)) ∧
    annualCov (f.col j) (f.col k) = some (specAnnualCov (f.colVals j) (f.colVals k)) := by
  obtain ⟨hcolj, hlj⟩ := colVals_spec f j hall hrect hj
  obtain ⟨hcolk, hlk⟩ := colVals_spec f k hall hrect hk
  have hjne : (f.colVals j).length ≠ 0 := by rw [hlj]; omega
  constructor
  · rw [hcolj]
    unfold annualMean
    rw [filterMap_id_map_some]
    rw [if_neg hjne]
    unfold specAnnualMean
    rw [mul_comm]
  · rw [hcolj, hcolk]
    unfold annualCov
    rw [pairwiseComplete_map_some]
    have hlzip : ((f.colVals j).zip (f.colVals k)).length = (f.colVals j).length := by
      rw [List.length_zip, hlj, hlk]
      exact Nat.min_self _
    have hnot2 : ¬ ((f.colVals j).zip (f.colVals k)).length < 2 := by
      rw [hlzip, hlj]; omega
    rw [if_neg hnot2]
    rw [List.map_fst_zip _ _ (le_of_eq (hlj.trans hlk.symm))]
    rw [List.map_snd_zip _ _ (le_of_eq (hlk.trans hlj.symm))]
    rw [hlzip]
    unfold specAnnualCov specSampleCov
    rw [hlj, hlk, mul_comm]

/-- Witness for C6: the concrete 2×2 frame. -/
theorem C6_stats_match_spec_witness :
    annualMean (frame2x2.col 0) = some (specAnnualMean (frame2x2.colVals 0)) ∧
    annualCov (frame2x2.col 0) (frame2x2.col 1) =
      some (specAnnualCov (frame2x2.colVals 0) (frame2x2.colVals 1)) :=
  C6_stats_match_spec frame2x2 0 1 (by with_unfolding_all decide)
    (by with_unfolding_all decide) (by with_unfolding_all decide)
    (by with_unfolding_all decide) (by with_unfolding_all decide)

end PortfolioOpt

